import Mathlib

/-!
Verification of the orion repository's patch-extraction, validation and
workflow components against its specification.

Texts are modelled as lists of characters (`Str`).  Python's `re` calls in
`src/ai_generator.py` use two fixed patterns; a specialised backtracking
matcher for exactly those patterns is implemented below and mirrors CPython's
leftmost, non-overlapping `re.findall` semantics (greedy `\s*` and `[^\n]+`,
lazy `(.*?)` under `DOTALL`).  External effects (subprocess runs, the
filesystem, the Python byte-compiler) enter as explicit parameters.
-/

namespace Orion

set_option maxRecDepth 100000

/-- Program text: a list of characters. -/
abbrev Str := List Char

/-- Python exception classes relevant to the modelled code.  `systemExit`
derives from `BaseException` only, so an `except Exception` clause does not
catch it. -/
inductive PyExc where
  | calledProcessError
  | exception
  | systemExit
  | nameError
  | valueError
deriving DecidableEq, Repr

/-- Whether `except Exception` catches the given exception.  `SystemExit`
(and `KeyboardInterrupt`) derive from `BaseException` only. -/
def catchableAsException : PyExc → Bool
  | .systemExit => false
  | _ => true

/-- The characters matched by `\s` in Python's `re` (ASCII range) and
stripped by `str.strip()` for ASCII input. -/
def pyWs (c : Char) : Bool :=
  c = ' ' || c = '\t' || c = '\n' || c = '\r' || c = '\x0b' || c = '\x0c'

/-- Python `str.strip()`: drop whitespace from both ends. -/
def pyStrip (s : Str) : Str :=
  ((s.dropWhile pyWs).reverse.dropWhile pyWs).reverse

/-- If `tok` is a prefix of `s`, return the remainder of `s`; else `none`. -/
def dropLit : Str → Str → Option Str
  | [], s => some s
  | _ :: _, [] => none
  | t :: ts, c :: cs => if t = c then dropLit ts cs else none

/-- Python's `needle in hay` on strings: substring containment. -/
def hasSub (hay needle : Str) : Bool :=
  match hay with
  | [] => needle.isEmpty
  | c :: t => needle.isPrefixOf (c :: t) || hasSub t needle

/-- Python's `str.endswith`. -/
def endsWithStr (s suffixStr : Str) : Bool := suffixStr.isSuffixOf s

/-- Python's `str.lower` (ASCII). -/
def lowerStr (s : Str) : Str := s.map Char.toLower

/-- Python's `str.replace(pat, repl)`: replace all non-overlapping
occurrences, left to right.  Fuelled recursion; fuel `s.length` suffices. -/
def replaceAllAux (pat repl : Str) : Nat → Str → Str
  | 0, s => s
  | _ + 1, [] => []
  | fuel + 1, c :: t =>
    match dropLit pat (c :: t) with
    | some rest => repl ++ replaceAllAux pat repl fuel rest
    | none => c :: replaceAllAux pat repl fuel t

/-- Python's `str.replace` for a non-empty pattern. -/
def replaceAllStr (s pat repl : Str) : Str := replaceAllAux pat repl s.length s

/-! ### The two regular expressions of `src/ai_generator.py`

`FILE:\s*([^\n]+)\n```(?:python)?\n(.*?)```` with `re.DOTALL`, and the block
patterns ```` ```python\n(.*?)``` ```` / ```` ```\n(.*?)``` ````. -/

/-- Lazy `(.*?)``` ` under `DOTALL`: split at the earliest occurrence of
three backticks; returns the body and the text after the backticks. -/
def findClose : Str → Option (Str × Str)
  | [] => none
  | c :: t =>
    match dropLit ("```".data) (c :: t) with
    | some rest => some ([], rest)
    | none =>
      match findClose t with
      | some (b, r) => some (c :: b, r)
      | none => none

/-- Match `\n(.*?)``` ` at the head of `u` (the empty alternative of
`(?:python)?`). -/
def matchTailNoPy (u : Str) : Option (Str × Str) :=
  match u with
  | '\n' :: v => findClose v
  | _ => none

/-- Match `(?:python)?\n(.*?)``` ` at the head of `u`: greedily try the
`python` alternative first, backtracking to the empty alternative. -/
def matchTail (u : Str) : Option (Str × Str) :=
  match dropLit ("python\n".data) u with
  | some v =>
    match findClose v with
    | some r => some r
    | none => matchTailNoPy u
  | none => matchTailNoPy u

/-- Match `([^\n]+)\n```(?:python)?\n(.*?)``` ` at the head of `t`.  The
greedy `[^\n]+` can only succeed by consuming the entire rest of the line
(shorter matches leave a non-newline character in front of `\n`). -/
def matchNameAndBody (t : Str) : Option (Str × Str × Str) :=
  let name := t.takeWhile (fun c => c ≠ '\n')
  let rest := t.dropWhile (fun c => c ≠ '\n')
  if name.isEmpty then none
  else
    match rest with
    | '\n' :: u =>
      match dropLit ("```".data) u with
      | some v =>
        match matchTail v with
        | some (body, r) => some (name, body, r)
        | none => none
      | none => none
    | _ => none

/-- Backtracking for the greedy `\s*`: try consuming `k` whitespace
characters, longest first. -/
def wsLoop (t : Str) : Nat → Option (Str × Str × Str)
  | 0 => matchNameAndBody t
  | k + 1 =>
    match matchNameAndBody (t.drop (k + 1)) with
    | some r => some r
    | none => wsLoop t k

/-- Match the full file-marker pattern at the head of `s`; on success
return (group 1, group 2, remainder after the match). -/
def matchFileAt (s : Str) : Option (Str × Str × Str) :=
  match dropLit ("FILE:".data) s with
  | some t => wsLoop t (t.takeWhile pyWs).length
  | none => none

/-- `re.findall` scan: try the pattern at each position, left to right,
resuming after each match (non-overlapping).  Fuel `s.length` suffices
because every step consumes at least one character. -/
def scanAux : Nat → Str → List (Str × Str)
  | 0, _ => []
  | _ + 1, [] => []
  | fuel + 1, c :: t =>
    match matchFileAt (c :: t) with
    | some (n, b, rest) => (n, b) :: scanAux fuel rest
    | none => scanAux fuel t

/-- `re.findall(r"FILE:\s*([^\n]+)\n```(?:python)?\n(.*?)```", s, re.DOTALL)`. -/
def fileMatches (s : Str) : List (Str × Str) := scanAux s.length s

/-- `re.findall` scan for `openTok ++ (.*?)``` ` (the fenced-block patterns). -/
def scanBlocksAux (openTok : Str) : Nat → Str → List Str
  | 0, _ => []
  | _ + 1, [] => []
  | fuel + 1, c :: t =>
    match dropLit openTok (c :: t) with
    | some u =>
      match findClose u with
      | some (b, rest) => b :: scanBlocksAux openTok fuel rest
      | none => scanBlocksAux openTok fuel t
    | none => scanBlocksAux openTok fuel t

/-- All fenced blocks opened by `openTok`. -/
def scanBlocks (openTok : Str) (s : Str) : List Str := scanBlocksAux openTok s.length s

/-! ### `src/ai_generator.py` -/

/-- The keywords `extract_python_code_from_text` looks for inside a generic
fenced block. -/
def codeBlockKeywords : List Str :=
  (["import", "def ", "class ", "from ", "print("]).map String.data

/-- The keywords that switch the line scanner of
`extract_python_code_from_text` into its accumulating state. -/
def lineKeywords : List Str :=
  (["import ", "from ", "def ", "class ", "if __name__"]).map String.data

/-- `extract_python_code_from_text(text)`:
1. first ```` ```python ```` block, stripped, if any;
2. else the first ```` ``` ```` block containing a code keyword, stripped;
3. else the suffix of lines starting at the first line containing a line
   keyword, joined with newlines, accepted only if it still contains
   `import` or `def `;
4. else the empty string. -/
def extractPythonCodeFromText (text : Str) : Str :=
  match scanBlocks ("```python\n".data) text with
  | b :: _ => pyStrip b
  | [] =>
    let codeBlocks := scanBlocks ("```\n".data) text
    match codeBlocks.find? (fun b => codeBlockKeywords.any (fun k => hasSub b k)) with
    | some b => pyStrip b
    | none =>
      let lines := text.splitOn '\n'
      let pythonLines := lines.dropWhile (fun l => !(lineKeywords.any (fun k => hasSub l k)))
      if pythonLines.isEmpty then []
      else
        let code := List.intercalate ['\n'] pythonLines
        if hasSub code ("import".data) || hasSub code ("def ".data) then code else []

/-- The extension fix of `make_code_changes`: after stripping, append `.py`
when the name neither ends in `.py` nor contains a dot (the first conjunct
is implied by the second; both appear in the source). -/
def fixName (raw : Str) : Str :=
  let f := pyStrip raw
  if !(endsWithStr f (".py".data)) && !(f.contains '.') then f ++ ".py".data else f

/-- Documentation-fallback header written by `make_code_changes`. -/
def defaultHeader : Str := "# AI Suggested Changes\n\n".data

/-- Result of `make_code_changes`: the returned list of created file names,
and the writes `(filename, content)` performed in order (all writes are
assumed to succeed; the source swallows per-file write errors). -/
structure ChangeResult where
  createdFiles : List Str
  writes : List (Str × Str)
deriving DecidableEq, Repr

/-- `make_code_changes(repo_path, changes_description)`.  File paths are
relative to `repo_path`, which plays no further role. -/
def makeCodeChanges (changesDescription : Str) : ChangeResult :=
  match fileMatches changesDescription with
  | [] =>
    let scriptContent := extractPythonCodeFromText changesDescription
    if !scriptContent.isEmpty then
      { createdFiles := ["clip_script.py".data],
        writes := [("clip_script.py".data, scriptContent)] }
    else
      { createdFiles := ["AI_SUGGESTED_CHANGES.md".data],
        writes := [("AI_SUGGESTED_CHANGES.md".data, defaultHeader ++ changesDescription)] }
  | ms =>
    { createdFiles := ms.map (fun m => fixName m.1),
      writes := ms.map (fun m => (fixName m.1, pyStrip m.2)) }

/-! ### `src/code_tester.py`: the harness generator

`generate_test_wrapper` first classifies the target by keyword scans, then
builds the harness text with Python f-strings.  An f-string is modelled as a
list of segments: literal text, a valid replacement field (all valid fields
in the source interpolate a single value: `filename` resp. `module_name`),
or an invalid replacement field.  The `mocks = {...}` dictionary of the
template stands inside the f-string with single (unescaped) braces, so
Python parses it as a replacement field whose expression is the string
`'input'` and whose format specifier is the remaining dictionary text; since
that is not a valid string format specifier, evaluating the f-string raises
`ValueError` (verified against CPython's documented f-string grammar). -/

/-- A segment of a Python f-string template. -/
inductive FSeg where
  | lit (s : Str)
  | field
  | invalidField (expr spec : Str)
deriving DecidableEq, Repr

/-- Evaluate an f-string template, interpolating `v` at each valid field.
An invalid replacement field raises `ValueError` when reached. -/
def evalFSegs (v : Str) : List FSeg → Except PyExc Str
  | [] => .ok []
  | .lit s :: rest => (evalFSegs v rest).map (fun t => s ++ t)
  | .field :: rest => (evalFSegs v rest).map (fun t => v ++ t)
  | .invalidField _ _ :: _ => .error .valueError

/-- `needs_image`: a vision keyword occurs in the lower-cased source. -/
def needsImage (code : Str) : Bool :=
  ((["image", "pil", "cv2", "pillow", "imread"]).map String.data).any
    (fun k => hasSub (lowerStr code) k)

/-- `needs_text` (computed and unused by the source). -/
def needsText (code : Str) : Bool :=
  ((["text", "input(", "clip"]).map String.data).any (fun k => hasSub (lowerStr code) k)

/-- `needs_file_path` (computed and unused by the source). -/
def needsFilePath (code : Str) : Bool :=
  hasSub (lowerStr code) ("file".data) &&
    ((["open(", "load", "read"]).map String.data).any (fun k => hasSub code k)

/-- `has_main_guard`: the source contains a conventional entry guard. -/
def hasMainGuard (code : Str) : Bool :=
  hasSub code ("if __name__ == \"__main__\"".data)

/-- Template text before the first `{filename}` field. -/
def wrapA : Str :=
  ("#!/usr/bin/env python3\n\"\"\"\nTest wrapper for ").data

/-- Template text between the two `{filename}` fields. -/
def wrapB : Str :=
  ("\nThis script provides dummy inputs and tests the execution.\n\"\"\"\n\nimport sys\nimport os\nimport tempfile\nimport io\nfrom unittest.mock import patch, MagicMock\n\n# Add current directory to path\nsys.path.insert(0, \x27.\x27)\n\ndef create_dummy_image():\n    \"\"\"Create a dummy image for testing.\"\"\"\n    try:\n        from PIL import Image\n        import numpy as np\n"
   ++ "        # Create a small dummy image\n        dummy_img = Image.fromarray(np.random.randint(0, 255, (224, 224, 3), dtype=np.uint8))\n        return dummy_img\n    except ImportError:\n        return None\n\ndef create_dummy_file():\n    \"\"\"Create a dummy file for testing.\"\"\"\n    temp_file = tempfile.NamedTemporaryFile(mode=\x27w\x27, delete=False, suffix=\x27.txt\x27)\n    temp_file.write(\"This is a dummy file for testing purposes.\\n\")\n"
   ++ "    temp_file.write(\"It contains sample text content.\\n\")\n    temp_file.close()\n    return temp_file.name\n\ndef mock_input_function(prompt=\"\"):\n    \"\"\"Mock input function that returns dummy values.\"\"\"\n    if \x27image\x27 in prompt.lower() or \x27file\x27 in prompt.lower():\n        return create_dummy_file()\n    elif \x27text\x27 in prompt.lower():\n        return \"This is a sample text for testing\"\n    else:\n        return \"dummy_input\"\n\ndef main():\n    \"\"\"Run the test with proper mocking and error handling.\"\"\"\n    print(f\"🧪 Testing ").data

/-- Template text between the second `{filename}` field and the invalid
`mocks` replacement field. -/
def wrapC : Str :=
  ("...\")\n    \n    # Prepare dummy data\n    dummy_inputs = [\"dummy_input\", \"test\", \"sample\", create_dummy_file()]\n    input_counter = 0\n    \n    def mock_input_with_counter(prompt=\"\"):\n        nonlocal input_counter\n        if input_counter < len(dummy_inputs):\n            result = dummy_inputs[input_counter]\n            input_counter += 1\n            return str(result)\n        return mock_input_function(prompt)\n    \n    # Mock various functions that might cause issues\n    mocks = ").data

/-- Expression part of the invalid replacement field (the text between the
opening brace of `mocks = {` and the first top-level colon). -/
def mocksFieldExpr : Str := ("\n        \x27input\x27").data

/-- Format-specifier part of the invalid replacement field (the text between
the first top-level colon and the closing brace). -/
def mocksFieldSpec : Str :=
  (" mock_input_with_counter,\n        \x27open\x27: lambda *args, **kwargs: open(*args, **kwargs) if len(args) > 0 and os.path.exists(args[0]) else io.StringIO(\"dummy content\"),\n    ").data

/-- Template text after the invalid field, to the end of the first template.
It contains the image-open substitution block guarded by the plain name
`needs_image`, and the `builtins.input` patch. -/
def wrapD : Str :=
  ("\n    \n    # Additional mocks for image processing\n    if needs_image:\n        try:\n            from PIL import Image\n            dummy_image = create_dummy_image()\n            if dummy_image:\n                Image.open = lambda *args, **kwargs: dummy_image\n        except ImportError:\n            pass\n    \n    try:\n        # Capture stdout/stderr\n        old_stdout = sys.stdout\n        old_stderr = sys.stderr\n        \n        captured_output = io.StringIO()\n        captured_errors = io.StringIO()\n        \n        sys.stdout = captured_output\n        sys.stderr = captured_errors\n        \n        # Mock input and other problematic functions\n        with patch(\x27builtins.input\x27, side_effect=mock_input_with_counter):\n").data

/-- The first (and failing) f-string template of `generate_test_wrapper`,
`wrapper = f'''...'''`, fields interpolating `filename`. -/
def wrapperPart1Segs : List FSeg :=
  [.lit wrapA, .field, .lit wrapB, .field, .lit wrapC,
   .invalidField mocksFieldExpr mocksFieldSpec, .lit wrapD]

/-- The template appended when the target has a main guard, fields
interpolating `module_name`. -/
def mainGuardSegs : List FSeg :=
  [.lit ("\n            # Import and run the module\n            import ").data,
   .field,
   .lit ("\n            \n            # If there\x27s a main function, try to call it\n            if hasattr(").data,
   .field,
   .lit (", \x27main\x27):\n                ").data,
   .field,
   .lit (".main()\n            elif hasattr(").data,
   .field,
   .lit (", \x27run\x27):\n                ").data,
   .field,
   .lit (".run()\n").data]

/-- The template appended when the target has no main guard, fields
interpolating `filename`; `{{...}}` renders as literal braces. -/
def execSegs : List FSeg :=
  [.lit ("\n            # Execute the file content\n            with open(\x27").data,
   .field,
   .lit ("\x27, \x27r\x27) as f:\n                code_content = f.read()\n            \n            # Execute in a controlled environment\n            exec(code_content, \x7b\x27__name__\x27: \x27__main__\x27\x7d)\n").data]

/-- The closing template (no valid fields; `{{e}}` renders literally). -/
def tailSegs : List FSeg :=
  [.lit (("\n        # Restore stdout/stderr\n        sys.stdout = old_stdout\n        sys.stderr = old_stderr\n        \n        # Check for any errors\n        error_output = captured_errors.getvalue()\n        if error_output and (\x27error\x27 in error_output.lower() or \x27exception\x27 in error_output.lower()):\n            print(f\"❌ Errors detected in output:\")\n            print(error_output[:500])\n            return False\n        \n        # Print captured output (truncated)\n        output = captured_output.getvalue()\n        if output:\n            print(f\"✅ Script executed successfully. Output:\")\n            print(output[:300] + \"...\" if len(output) > 300 else output)\n        else:\n            print(f\"✅ Script executed successfully (no output)\")\n        \n        return True\n        \n    except Exception as e:\n"
   ++ "        # Restore stdout/stderr\n        sys.stdout = old_stdout\n        sys.stderr = old_stderr\n        \n        print(f\"❌ Execution failed: \x7btype(e).__name__\x7d: \x7be\x7d\")\n        return False\n    \n    finally:\n        # Clean up any temporary files\n        for dummy_input in dummy_inputs:\n            if isinstance(dummy_input, str) and os.path.exists(dummy_input) and dummy_input.startswith(\x27/tmp\x27):\n                try:\n                    os.unlink(dummy_input)\n                except:\n                    pass\n\nif __name__ == \"__main__\":\n    success = main()\n    sys.exit(0 if success else 1)\n").data)]

/-- `generate_test_wrapper(code, filename)`.  The keyword flags are computed
exactly as in the source (where `needs_image`, `needs_text` and
`needs_file_path` are never used afterwards); evaluating the first template
then raises `ValueError` at the invalid `mocks` replacement field, before
any branch on `has_main_guard` is taken. -/
def generateTestWrapper (code filename : Str) : Except PyExc Str :=
  let _needs_image := needsImage code
  let _needs_text := needsText code
  let _needs_file_path := needsFilePath code
  let has_main_guard := hasMainGuard code
  match evalFSegs filename wrapperPart1Segs with
  | .error e => .error e
  | .ok w1 =>
    let module_name := replaceAllStr filename (".py".data) []
    match (if has_main_guard then evalFSegs module_name mainGuardSegs
           else evalFSegs filename execSegs) with
    | .error e => .error e
    | .ok w2 =>
      match evalFSegs [] tailSegs with
      | .error e => .error e
      | .ok w3 => .ok (w1 ++ w2 ++ w3)

/-! ### `src/code_tester.py`: the per-file runner

`create_and_run_test_wrapper` reads the target, generates a harness, writes
it to the sibling file `test_<filename>`, runs it under the sandbox
interpreter with `timeout=60`, and removes the sibling file.  The
subprocess outcome and the success of `os.remove` are environment inputs;
the harness-generation step enters as a function parameter (its only
observable effect here is returning text or raising — the repository's own
generator always raises, see `generateTestWrapper`). -/

/-- Outcome of `subprocess.run([venv_python, f"test_{filename}"], ...)`:
normal completion with an exit code, `TimeoutExpired` (after which the
library has forcibly terminated the child), or some other exception. -/
inductive RunOutcome where
  | completed (returncode : Int)
  | timeoutExpired
  | raisedExc
deriving DecidableEq, Repr

/-- Observable result of `create_and_run_test_wrapper`: the returned
boolean, whether the sibling wrapper file was written, how many `os.remove`
calls were attempted on it, and whether it was removed in the end.  The
function itself never lets an exception escape. -/
structure WrapperRunResult where
  success : Bool
  wrapperWritten : Bool
  removeAttempts : Nat
  wrapperRemoved : Bool
deriving DecidableEq, Repr

/-- `create_and_run_test_wrapper(repo_path, filename, venv_python)`.
`fileContent` is the target file's content (`none`: `open` raises and the
outer handler returns `False`).  On normal completion the lone `os.remove`
is not guarded: its failure falls to the outer handler, which returns
`False` even for exit code 0.  On the timeout and exception paths the
removal attempt is wrapped in `try/except: pass`. -/
def createAndRunTestWrapper (fileContent : Option Str)
    (gen : Str → Str → Except PyExc Str) (filename : Str)
    (outcome : RunOutcome) (removeOk : Bool) : WrapperRunResult :=
  match fileContent with
  | none => ⟨false, false, 0, false⟩
  | some code =>
    match gen code filename with
    | .error _ => ⟨false, false, 0, false⟩
    | .ok _ =>
      match outcome with
      | .completed rc =>
        if removeOk then ⟨rc == 0, true, 1, true⟩
        else ⟨false, true, 2, false⟩
      | .timeoutExpired =>
        if removeOk then ⟨false, true, 1, true⟩ else ⟨false, true, 1, false⟩
      | .raisedExc =>
        if removeOk then ⟨false, true, 1, true⟩ else ⟨false, true, 1, false⟩

/-! ### `src/code_tester.py`: `test_generated_code`

The filesystem (`fs`), the byte-compile check (`compiles`, false on
`SyntaxError`) and the per-file harness run (`runTest`, the boolean
returned by `create_and_run_test_wrapper` for that filename) are
environment inputs. -/

/-- Result of `test_generated_code`: the aggregate boolean and the ordered
list of files for which a harness was generated and executed. -/
structure TestCodeResult where
  allPassed : Bool
  attempted : List Str
deriving DecidableEq, Repr

/-- The per-file loop of `test_generated_code`: skip names not ending in
`.py`, skip files missing from disk, mark compile failures as failed
without running, otherwise run the harness and record its verdict. -/
def testFilesLoop (fs : Str → Option Str) (compiles : Str → Bool)
    (runTest : Str → Bool) : List Str → TestCodeResult
  | [] => ⟨true, []⟩
  | f :: rest =>
    let r := testFilesLoop fs compiles runTest rest
    if endsWithStr f (".py".data) then
      match fs f with
      | some code =>
        if compiles code then ⟨runTest f && r.allPassed, f :: r.attempted⟩
        else ⟨false, r.attempted⟩
      | none => r
    else r

/-- `test_generated_code(repo_path, venv_python, created_files)`. -/
def testGeneratedCode (fs : Str → Option Str) (compiles : Str → Bool)
    (runTest : Str → Bool) (createdFiles : List Str) : TestCodeResult :=
  if createdFiles.isEmpty then ⟨true, []⟩
  else testFilesLoop fs compiles runTest createdFiles

/-- The candidates actually evaluated by `test_generated_code`: names
ending in `.py` that exist on disk. -/
def evaluatedFiles (fs : Str → Option Str) (files : List Str) : List Str :=
  files.filter (fun f => endsWithStr f (".py".data) && (fs f).isSome)

/-- The per-file outcome: the compile check and, if it passes, the harness
run verdict. -/
def fileOutcome (fs : Str → Option Str) (compiles : Str → Bool)
    (runTest : Str → Bool) (f : Str) : Bool :=
  match fs f with
  | some code => compiles code && runTest f
  | none => true

/-! ### `src/environment_manager.py` -/

/-- `os.path.join(repo_path, ".venv")` for a plain relative/absolute dir. -/
def venvPathOf (repoPath : Str) : Str := repoPath ++ ('/' :: ".venv".data)

/-- Result of `create_virtual_environment`: the returned path or the
re-raised `CalledProcessError`, the directories existing afterwards, and
whether `python -m venv` was invoked. -/
structure VenvResult where
  result : Except PyExc Str
  dirs : List Str
  invokedTool : Bool
deriving Repr

/-- `create_virtual_environment(repo_path)` over an explicit set of
existing directories; `toolOk` is the outcome of `python -m venv`. -/
def createVirtualEnvironment (dirs : List Str) (repoPath : Str)
    (toolOk : Bool) : VenvResult :=
  let venvPath := venvPathOf repoPath
  if venvPath ∈ dirs then ⟨.ok venvPath, dirs, false⟩
  else if toolOk then ⟨.ok venvPath, venvPath :: dirs, true⟩
  else ⟨.error .calledProcessError, dirs, true⟩

/-- The fixed default dependency set installed when no `requirements.txt`
exists. -/
def commonDeps : List Str :=
  (["torch", "transformers", "pillow", "numpy", "requests"]).map String.data

/-- Result of `install_dependencies`: the returned boolean, the individual
default-package installs attempted (in order), and those that succeeded. -/
structure InstallDepsResult where
  ok : Bool
  defaultAttempts : List Str
  installedDefaults : List Str
deriving DecidableEq, Repr

/-- `install_dependencies(repo_path, venv_python)`.  `pipUpgradeOk`: the
`pip install --upgrade pip` step; `reqExists`: `requirements.txt` present;
`reqInstallOk`: the `pip install -r` step; `depOk`: per-package outcome of
the default installs.  A failed step with `check=True` raises
`CalledProcessError`; the outer handler turns it into `False`, while the
per-package handler inside the default loop swallows it. -/
def installDependencies (pipUpgradeOk reqExists reqInstallOk : Bool)
    (depOk : Str → Bool) : InstallDepsResult :=
  if !pipUpgradeOk then ⟨false, [], []⟩
  else if reqExists then
    if reqInstallOk then ⟨true, [], []⟩ else ⟨false, [], []⟩
  else ⟨true, commonDeps, commonDeps.filter depOk⟩

/-! ### `src/workflow.py`: `run`

The fallible external steps enter as an environment record.  The body of
`run` sits in `try/except CalledProcessError/except Exception/finally`;
`original_dir` is assigned only after `clone_repo` returns, and the
`finally` block executes `os.chdir(original_dir)` unconditionally, raising
`NameError`/`UnboundLocalError` when that assignment was never reached.
`sys.exit(1)` (strict testing) raises `SystemExit`, which neither
`except Exception` clause catches. -/

/-- Repository side effects performed by `run`, in order. -/
inductive GitAction where
  | clone
  | checkoutBranch
  | writeFiles
  | gitAdd
  | gitCommit
  | gitPush
  | createPR
deriving DecidableEq, Repr

/-- Outcomes of the external steps of `run`.  `none` means the step
succeeds; `some e` means it raises `e`.  `testingExc` is an exception
raised inside the testing-setup block (e.g. by
`create_virtual_environment`), which has its own `except Exception`. -/
structure RunEnv where
  cloneExc : Option PyExc
  gitStatusOk : Bool
  branchExc : Option PyExc
  generateExc : Option PyExc
  testingExc : Option PyExc
  depsInstalled : Bool
  testsPassed : Bool
  commitExc : Option PyExc
  pushExc : Option PyExc
deriving Repr

/-- The boolean arguments of `run`. -/
structure RunFlags where
  enableTesting : Bool
  createVenv : Bool
  strictTesting : Bool
  commitChanges : Bool
  createPr : Bool
deriving DecidableEq, Repr

/-- The `try` body of `run`: returns the exception escaping the body (if
any), whether `original_dir` was assigned, and the actions performed. -/
def runBody (env : RunEnv) (fl : RunFlags) :
    Option PyExc × Bool × List GitAction :=
  match env.cloneExc with
  | some e => (some e, false, [])
  | none =>
    -- original_dir = os.getcwd(); os.chdir(repo_path)
    if !env.gitStatusOk then (none, true, [.clone])  -- print + early return
    else
      match env.branchExc with
      | some e => (some e, true, [.clone])
      | none =>
        match env.generateExc with
        | some e => (some e, true, [.clone, .checkoutBranch])
        | none =>
          -- make_code_changes writes the extracted files
          let acts := [GitAction.clone, .checkoutBranch, .writeFiles]
          let testingOut : Option PyExc :=
            if fl.enableTesting && fl.createVenv then
              match env.testingExc with
              | some e => if catchableAsException e then none else some e
              | none =>
                if env.depsInstalled && !env.testsPassed && fl.strictTesting then
                  some .systemExit  -- sys.exit(1)
                else none
            else none
          match testingOut with
          | some e => (some e, true, acts)
          | none =>
            if fl.commitChanges then
              match env.commitExc with
              | some e => (some e, true, acts)
              | none =>
                let acts := acts ++ [GitAction.gitAdd, .gitCommit]
                if fl.createPr then
                  match env.pushExc with
                  | some e =>
                    if e = .calledProcessError then (none, true, acts)
                    else (some e, true, acts)
                  | none => (none, true, acts ++ [GitAction.gitPush, .createPR])
                else (none, true, acts)
            else (none, true, acts)

/-- `run(...)`: the body under `except CalledProcessError`,
`except Exception` and `finally: os.chdir(original_dir)`.  When
`original_dir` is unbound the `finally` block raises `NameError`, which
supersedes any already-handled exception. -/
def workflowRun (env : RunEnv) (fl : RunFlags) :
    Except PyExc Unit × List GitAction :=
  (if (runBody env fl).2.1 then
     match (match (runBody env fl).1 with
            | none => none
            | some e => if catchableAsException e then none else some e) with
     | none => .ok ()
     | some e => .error e
   else .error .nameError,
   (runBody env fl).2.2)

/-! ## Theorems -/

/-- Helper: the aggregate boolean of the per-file loop is the conjunction of
the per-file outcomes over the evaluated files. -/
theorem testFilesLoop_allPassed (fs : Str → Option Str)
    (compiles runTest : Str → Bool) (files : List Str) :
    (testFilesLoop fs compiles runTest files).allPassed
      = (evaluatedFiles fs files).all (fileOutcome fs compiles runTest) := by
  induction files with
  | nil => rfl
  | cons f rest ih =>
    cases hE : endsWithStr f (".py".data) with
    | false => simp [testFilesLoop, evaluatedFiles, List.filter_cons, hE, ih]
    | true =>
      cases hF : fs f with
      | none => simp [testFilesLoop, evaluatedFiles, List.filter_cons, hE, hF, ih]
      | some code =>
        cases hC : compiles code <;>
          simp [testFilesLoop, evaluatedFiles, List.filter_cons, hE, hF, hC,
            fileOutcome, ih, Bool.and_comm]

/-- Helper: the list of attempted files distributes over append. -/
theorem testFilesLoop_attempted_append (fs : Str → Option Str)
    (compiles runTest : Str → Bool) (xs ys : List Str) :
    (testFilesLoop fs compiles runTest (xs ++ ys)).attempted
      = (testFilesLoop fs compiles runTest xs).attempted
        ++ (testFilesLoop fs compiles runTest ys).attempted := by
  induction xs with
  | nil => simp [testFilesLoop]
  | cons x xs ih =>
    cases hE : endsWithStr x (".py".data) with
    | false => simp [testFilesLoop, hE, ih]
    | true =>
      cases hF : fs x with
      | none => simp [testFilesLoop, hE, hF, ih]
      | some code => cases hC : compiles code <;> simp [testFilesLoop, hE, hF, hC, ih]

/-- C1 (counterexample): on `FILE: a.py` followed by a python-fenced block
whose body is `x = 1\n`, the matcher captures the body with its trailing
newline, but `make_code_changes` writes the stripped body `x = 1`, so the
written content does not equal the fenced block body. -/
theorem make_code_changes_content_stripped :
    fileMatches ("FILE: a.py\n```python\nx = 1\n```".data)
      = [("a.py".data, "x = 1\n".data)] ∧
    (makeCodeChanges ("FILE: a.py\n```python\nx = 1\n```".data)).writes
      = [("a.py".data, "x = 1".data)] ∧
    ("x = 1".data : Str) ≠ ("x = 1\n".data : Str) :=
  ⟨by decide, by decide, by decide⟩

/-- C1 (amended): for every input with at least one file-marker match,
`make_code_changes` creates and returns exactly one file per match; the
name is the marker value stripped of surrounding whitespace, with `.py`
appended when the stripped name does not end in `.py` and contains no dot;
the written content is the fenced block body stripped of surrounding
whitespace (not the raw body). -/
theorem make_code_changes_per_match (text : Str) (h : fileMatches text ≠ []) :
    (makeCodeChanges text).writes.length = (fileMatches text).length ∧
    (makeCodeChanges text).createdFiles = (makeCodeChanges text).writes.map Prod.fst ∧
    (makeCodeChanges text).writes = (fileMatches text).map (fun m =>
      ((if !(endsWithStr (pyStrip m.1) (".py".data)) && !((pyStrip m.1).contains '.')
        then pyStrip m.1 ++ ".py".data else pyStrip m.1), pyStrip m.2)) := by
  cases hm : fileMatches text with
  | nil => exact absurd hm h
  | cons a l =>
    refine ⟨?_, ?_, ?_⟩ <;> simp [makeCodeChanges, hm, fixName]

/-- C1 witness: the amended statement evaluated on an input with two
well-formed markers. -/
theorem make_code_changes_per_match_witness :
    (makeCodeChanges ("FILE: a.py\n```python\nx = 1\n```\nFILE: b\n```\ny\n```".data)).writes
      = (fileMatches ("FILE: a.py\n```python\nx = 1\n```\nFILE: b\n```\ny\n```".data)).map
          (fun m =>
            ((if !(endsWithStr (pyStrip m.1) (".py".data)) && !((pyStrip m.1).contains '.')
              then pyStrip m.1 ++ ".py".data else pyStrip m.1), pyStrip m.2)) :=
  (make_code_changes_per_match
    ("FILE: a.py\n```python\nx = 1\n```\nFILE: b\n```\ny\n```".data) (by decide)).2.2

/-- C2: `test_generated_code` passes vacuously on an empty candidate list,
skips candidates without the `.py` extension or missing from disk, and
returns exactly the conjunction of the per-file outcomes over the
candidates actually evaluated. -/
theorem test_generated_code_conjunction (fs : Str → Option Str)
    (compiles runTest : Str → Bool) (files : List Str) :
    testGeneratedCode fs compiles runTest [] = ⟨true, []⟩ ∧
    (testGeneratedCode fs compiles runTest files).allPassed
      = (evaluatedFiles fs files).all (fileOutcome fs compiles runTest) := by
  refine ⟨rfl, ?_⟩
  cases files with
  | nil => rfl
  | cons f rest =>
    simpa [testGeneratedCode] using
      testFilesLoop_allPassed fs compiles runTest (f :: rest)

/-- C3 (code bug): `generate_test_wrapper` never emits a harness — its
first f-string template contains the `mocks` dictionary with unescaped
braces, an invalid replacement field, so evaluation raises `ValueError` for
every input; and the `needs_image` flag computed from the vision keywords
is never interpolated into the template, whose image-open substitution
block is instead guarded by the undefined plain name `needs_image` (while
the input patch and the image-open substitution text both sit
unconditionally in the template). -/
theorem generate_test_wrapper_never_emits_harness :
    needsImage ("print(\x27hello world\x27)".data) = false ∧
    generateTestWrapper ("print(\x27hello world\x27)".data) ("hello.py".data)
      = .error .valueError ∧
    wrapperPart1Segs.contains (FSeg.lit wrapD) = true ∧
    hasSub wrapD ("if needs_image:".data) = true ∧
    hasSub wrapD ("Image.open = lambda *args, **kwargs: dummy_image".data) = true ∧
    hasSub wrapD ("with patch(\x27builtins.input\x27, side_effect=mock_input_with_counter):".data)
      = true ∧
    hasSub (wrapA ++ wrapB ++ wrapC ++ wrapD) ("needs_image =".data) = false :=
  ⟨by decide, rfl, by decide, by decide, by decide, by decide, by decide⟩

/-- C4 (code bug): an exception raised by `clone_repo` (repository-setup
phase) is caught by the `except` clauses, but the `finally` block then
executes `os.chdir(original_dir)` with `original_dir` never assigned, so
`run` propagates `NameError` instead of returning; under strict testing a
failing test suite raises `SystemExit`, which `except Exception` does not
catch.  Exceptions in later phases (e.g. generation) are handled
gracefully. -/
theorem workflow_run_propagates_exceptions :
    (workflowRun ⟨some .calledProcessError, true, none, none, none, true, true, none, none⟩
        ⟨true, true, false, false, false⟩).1 = .error .nameError ∧
    (workflowRun ⟨some .exception, true, none, none, none, true, true, none, none⟩
        ⟨true, true, false, false, false⟩).1 = .error .nameError ∧
    (workflowRun ⟨none, true, none, none, none, true, false, none, none⟩
        ⟨true, true, true, false, false⟩).1 = .error .systemExit ∧
    (workflowRun ⟨none, true, none, some .exception, none, true, true, none, none⟩
        ⟨true, true, false, false, false⟩).1 = .ok () :=
  ⟨rfl, rfl, rfl, rfl⟩

/-- C5: when the harness run times out, `create_and_run_test_wrapper`
returns failure (it never hangs: `subprocess.run` reaps the child on
`TimeoutExpired`), the sibling wrapper file written beforehand has its
removal attempted, the file is removed whenever removal succeeds — on
every outcome — and a failing removal on the timeout and exception paths
is swallowed (the function still returns `False` normally). -/
theorem wrapper_timeout_fails_and_cleans (code filename w : Str)
    (gen : Str → Str → Except PyExc Str) (removeOk : Bool)
    (hgen : gen code filename = .ok w) :
    (createAndRunTestWrapper (some code) gen filename .timeoutExpired removeOk).success
      = false ∧
    (createAndRunTestWrapper (some code) gen filename .timeoutExpired removeOk).wrapperWritten
      = true ∧
    (createAndRunTestWrapper (some code) gen filename .timeoutExpired removeOk).removeAttempts
      = 1 ∧
    (∀ outcome, (createAndRunTestWrapper (some code) gen filename outcome true).wrapperRemoved
      = true) ∧
    createAndRunTestWrapper (some code) gen filename .timeoutExpired false
      = ⟨false, true, 1, false⟩ ∧
    createAndRunTestWrapper (some code) gen filename .raisedExc false
      = ⟨false, true, 1, false⟩ := by
  refine ⟨?_, ?_, ?_, ?_, ?_, ?_⟩
  · cases removeOk <;> simp [createAndRunTestWrapper, hgen]
  · cases removeOk <;> simp [createAndRunTestWrapper, hgen]
  · cases removeOk <;> simp [createAndRunTestWrapper, hgen]
  · intro outcome; cases outcome <;> simp [createAndRunTestWrapper, hgen]
  · simp [createAndRunTestWrapper, hgen]
  · simp [createAndRunTestWrapper, hgen]

/-- C5 witness: the statement evaluated with a generator that returns an
empty harness, a file that exists, and a failing removal. -/
theorem wrapper_timeout_fails_and_cleans_witness :
    (createAndRunTestWrapper (some []) (fun _ _ => .ok []) ("a.py".data)
        .timeoutExpired false).success = false ∧
    createAndRunTestWrapper (some []) (fun _ _ => .ok []) ("a.py".data)
        .timeoutExpired false = ⟨false, true, 1, false⟩ := by
  have h := wrapper_timeout_fails_and_cleans [] ("a.py".data) []
    (fun _ _ => .ok []) false rfl
  exact ⟨h.1, h.2.2.2.2.1⟩

/-- C6: a candidate whose source fails the compile check is recorded as
failed (the aggregate is false), no harness is generated or executed for
it, and the remaining candidates are still validated. -/
theorem failed_compile_skips_execution (fs : Str → Option Str)
    (compiles runTest : Str → Bool) (pre post : List Str) (bad code : Str)
    (hpy : endsWithStr bad (".py".data) = true)
    (hfs : fs bad = some code) (hc : compiles code = false) :
    (testGeneratedCode fs compiles runTest (pre ++ bad :: post)).allPassed = false ∧
    (testGeneratedCode fs compiles runTest (pre ++ bad :: post)).attempted
      = (testFilesLoop fs compiles runTest pre).attempted
        ++ (testFilesLoop fs compiles runTest post).attempted := by
  have hne : (pre ++ bad :: post).isEmpty = false := by cases pre <;> simp
  constructor
  · rw [testGeneratedCode, hne]
    simp only [Bool.false_eq_true, if_false, testFilesLoop_allPassed,
      evaluatedFiles, List.filter_append, List.all_append]
    simp [List.filter_cons, hpy, hfs, fileOutcome, hc]
  · rw [testGeneratedCode, hne]
    simp only [Bool.false_eq_true, if_false, testFilesLoop_attempted_append]
    simp [testFilesLoop, hpy, hfs, hc]

/-- C6 witness: a single syntactically invalid candidate is marked failed
and no harness run is attempted. -/
theorem failed_compile_skips_execution_witness :
    (testGeneratedCode (fun _ => some ("def f(:\n".data)) (fun _ => false)
        (fun _ => true) ["a.py".data]).allPassed = false ∧
    (testGeneratedCode (fun _ => some ("def f(:\n".data)) (fun _ => false)
        (fun _ => true) ["a.py".data]).attempted = [] := by
  have h := failed_compile_skips_execution (fun _ => some ("def f(:\n".data))
    (fun _ => false) (fun _ => true) [] [] ("a.py".data) ("def f(:\n".data)
    (by decide) rfl rfl
  exact ⟨h.1, by simpa [testFilesLoop] using h.2⟩

/-- C7: `install_dependencies` returns false when the pip upgrade fails, and
when `requirements.txt` exists but installing from it fails; with no
manifest it attempts each default package one at a time, silently skipping
individual failures, and returns true regardless of the per-package
outcomes. -/
theorem install_dependencies_policy (pipOk reqExists reqOk : Bool)
    (depOk : Str → Bool) :
    (pipOk = false → installDependencies pipOk reqExists reqOk depOk = ⟨false, [], []⟩) ∧
    (pipOk = true → reqExists = true → reqOk = false →
      (installDependencies pipOk reqExists reqOk depOk).ok = false) ∧
    (pipOk = true → reqExists = false →
      installDependencies pipOk reqExists reqOk depOk
        = ⟨true, commonDeps, commonDeps.filter depOk⟩) := by
  cases pipOk <;> cases reqExists <;> cases reqOk <;> simp [installDependencies]

/-- C7 witness: the three scenarios evaluated at concrete inputs. -/
theorem install_dependencies_policy_witness :
    installDependencies false true true (fun _ => true) = ⟨false, [], []⟩ ∧
    (installDependencies true true false (fun _ => true)).ok = false ∧
    installDependencies true false true (fun _ => false) = ⟨true, commonDeps, []⟩ := by
  refine ⟨(install_dependencies_policy false true true (fun _ => true)).1 rfl,
    (install_dependencies_policy true true false (fun _ => true)).2.1 rfl rfl rfl, ?_⟩
  have h := (install_dependencies_policy true false true (fun _ => false)).2.2 rfl rfl
  simpa using h

/-- C9: sandbox provisioning is idempotent by directory presence — when the
`.venv` directory already exists, `create_virtual_environment` returns its
path without invoking `python -m venv`; in particular a second call after a
successful first call returns the same path, leaves the directories
unchanged and performs no re-creation. -/
theorem venv_provision_idempotent (dirs : List Str) (repoPath : Str)
    (toolOk toolOk' : Bool) :
    (venvPathOf repoPath ∈ dirs →
      createVirtualEnvironment dirs repoPath toolOk
        = ⟨.ok (venvPathOf repoPath), dirs, false⟩) ∧
    ((createVirtualEnvironment dirs repoPath toolOk).result = .ok (venvPathOf repoPath) →
      createVirtualEnvironment (createVirtualEnvironment dirs repoPath toolOk).dirs
          repoPath toolOk'
        = ⟨.ok (venvPathOf repoPath),
           (createVirtualEnvironment dirs repoPath toolOk).dirs, false⟩) := by
  constructor
  · intro h
    simp [createVirtualEnvironment, h]
  · intro hok
    by_cases h : venvPathOf repoPath ∈ dirs
    · simp [createVirtualEnvironment, h]
    · cases toolOk with
      | true => simp [createVirtualEnvironment, h]
      | false => simp [createVirtualEnvironment, h] at hok


/-- C9 witness: a fresh successful provisioning followed by a second call
reuses the directory without invoking the tool. -/
theorem venv_provision_idempotent_witness :
    createVirtualEnvironment (createVirtualEnvironment [] ("repo".data) true).dirs
        ("repo".data) false
      = ⟨.ok (venvPathOf ("repo".data)),
         (createVirtualEnvironment [] ("repo".data) true).dirs, false⟩ :=
  (venv_provision_idempotent [] ("repo".data) true false).2 rfl

/-- Helper: with committing disabled, the action trace of the body of `run`
is one of four commit-free prefixes. -/
theorem runBody_acts_no_commit (env : RunEnv) (fl : RunFlags)
    (h : fl.commitChanges = false) :
    (runBody env fl).2.2 = [] ∨ (runBody env fl).2.2 = [GitAction.clone] ∨
    (runBody env fl).2.2 = [GitAction.clone, .checkoutBranch] ∨
    (runBody env fl).2.2 = [GitAction.clone, .checkoutBranch, .writeFiles] := by
  unfold runBody
  rcases env with ⟨ce, gs, be, ge, te, di, tp, cme, pe⟩
  cases ce <;> cases gs <;> cases be <;> cases ge <;> simp [h] <;>
    (try split) <;> simp

/-- Helper: once the clone, status check, branch creation and generation
steps succeed, the extracted files are written, on every path of `run`. -/
theorem runBody_writeFiles (env : RunEnv) (fl : RunFlags)
    (h1 : env.cloneExc = none) (h2 : env.gitStatusOk = true)
    (h3 : env.branchExc = none) (h4 : env.generateExc = none) :
    GitAction.writeFiles ∈ (runBody env fl).2.2 := by
  rcases env with ⟨ce, gs, be, ge, te, di, tp, cme, pe⟩
  obtain rfl : ce = none := h1
  obtain rfl : gs = true := h2
  obtain rfl : be = none := h3
  obtain rfl : ge = none := h4
  unfold runBody
  repeat' split
  all_goals simp_all

/-- C10: with `commit_changes = false`, `run` performs no staging, no
commit, no branch push and no pull-request creation, whatever the testing
outcome; the generated candidate files are still written to the working
tree whenever the run reaches the generation step. -/
theorem no_commit_actions_when_disabled (env : RunEnv) (eT cV sT cP : Bool) :
    (GitAction.gitAdd ∉ (workflowRun env ⟨eT, cV, sT, false, cP⟩).2 ∧
     GitAction.gitCommit ∉ (workflowRun env ⟨eT, cV, sT, false, cP⟩).2 ∧
     GitAction.gitPush ∉ (workflowRun env ⟨eT, cV, sT, false, cP⟩).2 ∧
     GitAction.createPR ∉ (workflowRun env ⟨eT, cV, sT, false, cP⟩).2) ∧
    (env.cloneExc = none → env.gitStatusOk = true → env.branchExc = none →
     env.generateExc = none →
      GitAction.writeFiles ∈ (workflowRun env ⟨eT, cV, sT, false, cP⟩).2) := by
  have hacts : (workflowRun env ⟨eT, cV, sT, false, cP⟩).2
      = (runBody env ⟨eT, cV, sT, false, cP⟩).2.2 := rfl
  constructor
  · rcases runBody_acts_no_commit env ⟨eT, cV, sT, false, cP⟩ rfl with h | h | h | h <;>
      rw [hacts, h] <;> refine ⟨by simp, by simp, by simp, by simp⟩
  · intro h1 h2 h3 h4
    rw [hacts]
    exact runBody_writeFiles env _ h1 h2 h3 h4

/-- C10 witness: an all-successful environment with testing enabled and
committing disabled writes the files and performs no commit action. -/
theorem no_commit_actions_when_disabled_witness :
    GitAction.gitCommit ∉ (workflowRun ⟨none, true, none, none, none, true, true, none, none⟩
        ⟨true, true, false, false, true⟩).2 ∧
    GitAction.writeFiles ∈ (workflowRun ⟨none, true, none, none, none, true, true, none, none⟩
        ⟨true, true, false, false, true⟩).2 := by
  have h := no_commit_actions_when_disabled
    ⟨none, true, none, none, none, true, true, none, none⟩ true true false true
  exact ⟨h.1.2.1, h.2 rfl rfl rfl rfl⟩

/-- C8 (counterexample): on plain prose (no marker, no extractable code),
`make_code_changes` writes the documentation file with a fixed header
prepended, so its content does not equal the raw input verbatim. -/
theorem doc_fallback_prepends_header :
    fileMatches ("Just some prose.".data) = [] ∧
    extractPythonCodeFromText ("Just some prose.".data) = [] ∧
    (makeCodeChanges ("Just some prose.".data)).writes
      = [("AI_SUGGESTED_CHANGES.md".data, defaultHeader ++ "Just some prose.".data)] ∧
    defaultHeader ++ "Just some prose.".data ≠ ("Just some prose.".data : Str) :=
  ⟨by decide, by decide, by decide, by decide⟩

/-- C8 (amended): for every input with no file-marker match and no
extractable source code, `make_code_changes` produces exactly one
documentation file `AI_SUGGESTED_CHANGES.md` whose content is the fixed
header `# AI Suggested Changes\n\n` followed by the raw input verbatim; the
extraction step is a total function and never raises. -/
theorem doc_fallback_single_file (text : Str)
    (h1 : fileMatches text = []) (h2 : extractPythonCodeFromText text = []) :
    makeCodeChanges text =
      { createdFiles := ["AI_SUGGESTED_CHANGES.md".data],
        writes := [("AI_SUGGESTED_CHANGES.md".data, defaultHeader ++ text)] } := by
  simp [makeCodeChanges, h1, h2]

/-- C8 witness: the amended statement evaluated on plain prose. -/
theorem doc_fallback_single_file_witness :
    makeCodeChanges ("Just some prose.".data) =
      { createdFiles := ["AI_SUGGESTED_CHANGES.md".data],
        writes := [("AI_SUGGESTED_CHANGES.md".data,
          defaultHeader ++ "Just some prose.".data)] } :=
  doc_fallback_single_file ("Just some prose.".data) (by decide) (by decide)

end Orion
